import Mathlib

/-!
Verification of the capture-classify-translate control logic of
`src/App.js` (danielwind/pictionary-tutorial), shallowly embedded in Lean.

The React component state hooks (App.js lines 28-33) become the fields of
`AppState`; the animation-frame bookkeeping (`requestAnimationFrameId`,
the pending frame scheduled by `requestAnimationFrame`, the ghost counter
of `getTranslation` invocations) becomes `PollState`.  The async functions
`getTranslation`, `getPrediction`, `handleCameraStream` and the reset
helper `loadNewTranslation` are embedded as state transformers; the
external fetch and classifier are parameters of the transitions.
-/

namespace Pictionary

/-- One entry of the `data.translations` list of a Google Translate
response body. -/
structure TranslationEntry where
  translatedText : String
deriving DecidableEq

/-- The `data` object of a Google Translate response body. -/
structure TransData where
  translations : List TranslationEntry
deriving DecidableEq

/-- A parsed JSON response body; the `data` field may be absent
(`response.data` undefined in JS). -/
structure ApiResponse where
  data? : Option TransData
deriving DecidableEq

/-- The possible outcomes of the `fetch` + `.json()` sequence inside
`getTranslation` (App.js lines 115-123):
* `throws` — `fetch` rejects (network/transport error);
* `nullResp` — `fetch` resolves to a falsy value (the defensive
  `if(!apiCall)` branch at line 116);
* `jsonThrows` — `apiCall.json()` rejects (missing/empty/invalid body);
* `ok resp` — a parsed JSON body. -/
inductive FetchOutcome where
  | throws
  | nullResp
  | jsonThrows
  | ok (resp : ApiResponse)
deriving DecidableEq

/-- `true` on every outcome the spec calls a failure: transport error,
missing/empty body, or a body without a non-empty
`data.translations` list. -/
def FetchOutcome.failing : FetchOutcome → Bool
  | .throws => true
  | .nullResp => true
  | .jsonThrows => true
  | .ok resp =>
    match resp.data? with
    | none => true
    | some d => d.translations.isEmpty

/-- The component state hooks of App.js lines 28-32 that the control
logic touches: `word`, `translation`, `language`, `translationAvailable`,
`predictionFound`. -/
structure AppState where
  word : String
  translation : String
  language : String
  translationAvailable : Bool
  predictionFound : Bool
deriving DecidableEq

/-- Initial hook values (App.js lines 28-32): empty word and translation,
language `he`, `translationAvailable` initialised to `true`,
`predictionFound` to `false`. -/
def initialState : AppState :=
  { word := ""
    translation := ""
    language := "he"
    translationAvailable := true
    predictionFound := false }

/-- The spec's phase abstraction of the two Boolean flags:
`translationAvailable` selects the result view (`ShowingResult`);
otherwise `predictionFound` marks the window between the confident
classification and the translation completing (`Resolving`);
otherwise the camera view is live (`Capturing`). -/
inductive Phase where
  | Capturing
  | Resolving
  | ShowingResult
deriving DecidableEq

/-- Phase read off a component state. -/
def phase (s : AppState) : Phase :=
  if s.translationAvailable then Phase.ShowingResult
  else if s.predictionFound then Phase.Resolving
  else Phase.Capturing

/-- The literal fallback string set by App.js lines 119, 127 and 136. -/
def fallbackMessage : String :=
  "Cannot get transaction at this time. Please try again later"

/-- The `try` block of `getTranslation` (App.js lines 111-133).
`Except` models a JS exception escaping the block: the `error` payload is
the component state at the moment the exception is raised.  Note the
failed guards at lines 116 and 124 do NOT return: execution falls through
to line 131, whose field accesses on the missing data then throw. -/
def getTranslationTry (className : String) (outcome : FetchOutcome)
    (s : AppState) : Except AppState AppState :=
  match outcome with
  | .throws => .error s
  | .nullResp =>
    -- line 116: `if(!apiCall)` sets the fallback and falls through;
    -- line 123: `apiCall.json()` on a falsy value throws
    .error { s with translation := fallbackMessage }
  | .jsonThrows => .error s
  | .ok resp =>
    match resp.data? with
    | none =>
      -- line 124 guard sets the fallback and falls through;
      -- line 131: `response.data.translations` throws on the absent field
      .error { s with translation := fallbackMessage }
    | some d =>
      match d.translations with
      | [] =>
        -- line 124 guard sets the fallback and falls through;
        -- line 131: `translations[0].translatedText` throws on `undefined`
        .error { s with translation := fallbackMessage }
      | e :: _ =>
        -- lines 132-133: only the first entry is consulted
        .ok { s with translation := e.translatedText, word := className }

/-- `getTranslation` (App.js lines 110-140): run the `try` block, catch
any exception by setting the fallback text (line 136), and finally set
`translationAvailable` (line 139) whatever happened. -/
def getTranslation (className : String) (outcome : FetchOutcome)
    (s : AppState) : AppState :=
  match getTranslationTry className outcome s with
  | .ok s1 => { s1 with translationAvailable := true }
  | .error s1 =>
    { s1 with translation := fallbackMessage, translationAvailable := true }

/-- `loadNewTranslation` (App.js lines 215-220): the user's reset action. -/
def loadNewTranslation (s : AppState) : AppState :=
  { s with
      translation := ""
      word := ""
      predictionFound := false
      translationAvailable := false }

/-- The `onValueChange` handler of the language picker (App.js line 229). -/
def setLanguage (code : String) (s : AppState) : AppState :=
  { s with language := code }

/-- One classification entry returned by `mobilenetModel.classify`
(App.js lines 160-172): a class name and a probability.  Probabilities
are modelled as rationals in place of JS doubles. -/
structure Prediction where
  className : String
  probability : ℚ
deriving DecidableEq

/-- The enforced confidence threshold, the literal `0.3` of App.js
line 184 (the adjacent comment says 20%, but `0.3` is what the code
compares against). -/
def confidenceThreshold : ℚ := mkRat 3 10

/-- Poller-level state: the component state together with the
animation-frame bookkeeping of App.js lines 55 and 202-209 —
the `requestAnimationFrameId` variable, the id of the scheduled
still-unfired frame (if any; a fired frame is no longer cancellable),
a fresh-id source, and a ghost counter of `getTranslation` invocations. -/
structure PollState where
  app : AppState
  requestAnimationFrameId : Nat
  pending : Option Nat
  nextId : Nat
  translationCalls : Nat
deriving DecidableEq

/-- `cancelAnimationFrame(id)` (App.js line 187): removes the scheduled
frame if its id matches; a no-op on an id that already fired or was
never scheduled. -/
def cancelAnimationFrame (id : Nat) (ps : PollState) : PollState :=
  if ps.pending = some id then { ps with pending := none } else ps

/-- `getPrediction(tensor)` (App.js lines 174-193).  `tensor = none`
models a missing frame (line 175); the classifier result is the list
`prediction` (the `!prediction` null-check and the emptiness check of
line 181 both reduce to the empty list here).  On the confident branch
(line 184) the code cancels the stored frame id (line 187), sets
`predictionFound` (line 188) and awaits `getTranslation` on the top
class name (line 191); `outcome` supplies the fetch result and the
ghost counter records the invocation. -/
def getPrediction (tensor : Option (List Prediction)) (outcome : FetchOutcome)
    (ps : PollState) : PollState :=
  match tensor with
  | none => ps
  | some prediction =>
    match prediction with
    | [] => ps
    | top :: _ =>
      if confidenceThreshold < top.probability then
        { cancelAnimationFrame ps.requestAnimationFrameId ps with
            app := getTranslation top.className outcome
              { ps.app with predictionFound := true }
            translationCalls := ps.translationCalls + 1 }
      else ps

/-- One full execution of `loop` (App.js lines 203-207): pull the next
tensor and run `getPrediction` on it, then — unconditionally —
schedule the next frame and store its id. -/
def loopBody (tensor : Option (List Prediction)) (outcome : FetchOutcome)
    (ps : PollState) : PollState :=
  { getPrediction tensor outcome ps with
      requestAnimationFrameId := (getPrediction tensor outcome ps).nextId
      pending := some (getPrediction tensor outcome ps).nextId
      nextId := (getPrediction tensor outcome ps).nextId + 1 }

/-- The browser firing the scheduled animation frame: if a frame is
pending it fires (and is thereby no longer cancellable) and `loop`
runs; with no pending frame the loop is genuinely stopped. -/
def fireFrame (tensor : Option (List Prediction)) (outcome : FetchOutcome)
    (ps : PollState) : PollState :=
  match ps.pending with
  | none => ps
  | some _ => loopBody tensor outcome { ps with pending := none }

/-- `handleCameraStream` (App.js lines 202-209): when the camera stream
becomes ready, start the loop directly unless a prediction was already
found (`if(!predictionFound) loop()`). -/
def handleCameraStream (tensor : Option (List Prediction))
    (outcome : FetchOutcome) (ps : PollState) : PollState :=
  if ps.app.predictionFound then ps else loopBody tensor outcome ps

/-- Top-level events driving the component: the user's reset button,
the language picker, the camera stream becoming ready, and an
animation frame firing.  Frame events carry the frame (or its absence)
and the fetch outcome a confident classification would consume. -/
inductive Event where
  | reset
  | setLanguage (code : String)
  | streamReady (tensor : Option (List Prediction)) (outcome : FetchOutcome)
  | frame (tensor : Option (List Prediction)) (outcome : FetchOutcome)

/-- One event step. -/
def step : Event → PollState → PollState
  | .reset, ps => { ps with app := loadNewTranslation ps.app }
  | .setLanguage c, ps => { ps with app := setLanguage c ps.app }
  | .streamReady t o, ps => handleCameraStream t o ps
  | .frame t o, ps => fireFrame t o ps

/-- Run a sequence of events. -/
def run : List Event → PollState → PollState
  | [], ps => ps
  | e :: es, ps => run es (step e ps)

/-- The poller-level state at application start: initial hooks, frame id
variable `0` (App.js line 55), nothing scheduled. -/
def initialPollState : PollState :=
  { app := initialState
    requestAnimationFrameId := 0
    pending := none
    nextId := 1
    translationCalls := 0 }

/-- Component state right after a reset from the start state. -/
def resetState : AppState :=
  loadNewTranslation initialState

/-- Poller state right after a reset from the start state. -/
def resetPoll : PollState :=
  { initialPollState with app := resetState }

/-- A confident classification result used in concrete runs. -/
def mugPrediction : Prediction :=
  { className := "mug", probability := mkRat 81 100 }

/-- A frame classified as `mugPrediction`. -/
def mugTensor : Option (List Prediction) := some [mugPrediction]

/-- A well-formed translation response carrying one entry. -/
def mugResponse : ApiResponse :=
  { data? := some { translations := [{ translatedText := "ספל" }] } }

/-- A successful fetch outcome carrying `mugResponse`. -/
def mugOutcome : FetchOutcome := FetchOutcome.ok mugResponse

/-- A low-confidence classification result. -/
def lowPrediction : Prediction :=
  { className := "cup", probability := mkRat 1 5 }

/-- A confident classification result for the translation-failure runs. -/
def dogPrediction : Prediction :=
  { className := "dog", probability := mkRat 1 2 }

/-- An outcome whose parsed body lacks the `data` field. -/
def emptyDataOutcome : FetchOutcome := FetchOutcome.ok { data? := none }

/-- Two inconclusive ticks: a missing frame, then an empty classifier
result. -/
def inconclusiveTicks : List (Option (List Prediction) × FetchOutcome) :=
  [(none, FetchOutcome.throws), (some [], FetchOutcome.throws)]

/-- A capturing-phase poller state with a frame scheduled. -/
def capturingPoll : PollState :=
  { resetPoll with pending := some 1, nextId := 2 }

/-- The post-reset state reached from the middle of a cycle (the flags a
reset clears were set). -/
def staleResetState : AppState :=
  loadNewTranslation { initialState with predictionFound := true }

/-- `getTranslation` always ends by setting `translationAvailable`
(App.js line 139 runs after the `try`/`catch` on every path). -/
theorem getTranslation_translationAvailable (cn : String) (o : FetchOutcome)
    (s : AppState) : (getTranslation cn o s).translationAvailable = true := by
  cases o with
  | throws => rfl
  | nullResp => rfl
  | jsonThrows => rfl
  | ok resp =>
    obtain ⟨d⟩ := resp
    cases d with
    | none => rfl
    | some td =>
      obtain ⟨ts⟩ := td
      cases ts with
      | nil => rfl
      | cons e rest => rfl

/-- `getTranslation` never touches `predictionFound`. -/
theorem getTranslation_predictionFound (cn : String) (o : FetchOutcome)
    (s : AppState) : (getTranslation cn o s).predictionFound = s.predictionFound := by
  cases o with
  | throws => rfl
  | nullResp => rfl
  | jsonThrows => rfl
  | ok resp =>
    obtain ⟨d⟩ := resp
    cases d with
    | none => rfl
    | some td =>
      obtain ⟨ts⟩ := td
      cases ts with
      | nil => rfl
      | cons e rest => rfl

/-- On every failing outcome, `getTranslation` stores the fallback text,
sets `translationAvailable`, and changes nothing else. -/
theorem getTranslation_failing_eq (cn : String) (o : FetchOutcome)
    (s : AppState) (h : o.failing = true) :
    getTranslation cn o s =
      { s with translation := fallbackMessage, translationAvailable := true } := by
  cases o with
  | throws => rfl
  | nullResp => rfl
  | jsonThrows => rfl
  | ok resp =>
    obtain ⟨d⟩ := resp
    cases d with
    | none => rfl
    | some td =>
      obtain ⟨ts⟩ := td
      cases ts with
      | nil => rfl
      | cons e rest => simp [FetchOutcome.failing] at h

/-- A state with `translationAvailable` set reads as `ShowingResult`. -/
theorem phase_of_available (s : AppState) (h : s.translationAvailable = true) :
    phase s = Phase.ShowingResult := by
  simp [phase, h]

/-- Below the threshold, `getPrediction` is the identity. -/
theorem getPrediction_low (top : Prediction) (rest : List Prediction)
    (o : FetchOutcome) (ps : PollState)
    (h : top.probability ≤ confidenceThreshold) :
    getPrediction (some (top :: rest)) o ps = ps := by
  simp [getPrediction, not_lt.mpr h]

/-- Above the threshold, `getPrediction` cancels the stored frame id,
sets `predictionFound`, runs `getTranslation` on the top class name and
bumps the invocation counter. -/
theorem getPrediction_high (top : Prediction) (rest : List Prediction)
    (o : FetchOutcome) (ps : PollState)
    (h : confidenceThreshold < top.probability) :
    getPrediction (some (top :: rest)) o ps =
      { cancelAnimationFrame ps.requestAnimationFrameId ps with
          app := getTranslation top.className o
            { ps.app with predictionFound := true }
          translationCalls := ps.translationCalls + 1 } := by
  simp [getPrediction, h]

/-- `getPrediction` either leaves the component state alone or hands it
to `getTranslation`, which sets `translationAvailable`. -/
theorem getPrediction_app_cases (t : Option (List Prediction))
    (o : FetchOutcome) (ps : PollState) :
    (getPrediction t o ps).app = ps.app ∨
    (getPrediction t o ps).app.translationAvailable = true := by
  cases t with
  | none => exact Or.inl rfl
  | some prediction =>
    cases prediction with
    | nil => exact Or.inl rfl
    | cons top rest =>
      by_cases h : confidenceThreshold < top.probability
      · refine Or.inr ?_
        rw [getPrediction_high top rest o ps h]
        exact getTranslation_translationAvailable top.className o _
      · refine Or.inl ?_
        rw [getPrediction_low top rest o ps (not_lt.mp h)]

/-- The loop body does not touch the component state beyond what
`getPrediction` does. -/
theorem loopBody_app (t : Option (List Prediction)) (o : FetchOutcome)
    (ps : PollState) : (loopBody t o ps).app = (getPrediction t o ps).app := rfl

/-- With no frame or an empty classifier result, `getPrediction` is the
identity. -/
theorem getPrediction_inconclusive (t : Option (List Prediction))
    (o : FetchOutcome) (ps : PollState) (h : t = none ∨ t = some []) :
    getPrediction t o ps = ps := by
  rcases h with h | h <;> subst h <;> rfl

/-- An inconclusive fired frame leaves the component state and the
invocation counter alone and keeps the loop scheduled. -/
theorem fireFrame_inconclusive (t : Option (List Prediction))
    (o : FetchOutcome) (ps : PollState) (h : t = none ∨ t = some []) :
    (fireFrame t o ps).app = ps.app ∧
    (fireFrame t o ps).translationCalls = ps.translationCalls ∧
    (fireFrame t o ps).pending.isSome = ps.pending.isSome := by
  obtain ⟨a, rid, pnd, nid, calls⟩ := ps
  cases pnd with
  | none => exact ⟨rfl, rfl, rfl⟩
  | some k =>
    have hg := getPrediction_inconclusive t o ⟨a, rid, none, nid, calls⟩ h
    refine ⟨?_, ?_, rfl⟩
    · show (getPrediction t o ⟨a, rid, none, nid, calls⟩).app = a
      rw [hg]
    · show (getPrediction t o ⟨a, rid, none, nid, calls⟩).translationCalls = calls
      rw [hg]

/-- `handleCameraStream` either declines to start or runs the loop. -/
theorem handleCameraStream_cases (t : Option (List Prediction))
    (o : FetchOutcome) (ps : PollState) :
    handleCameraStream t o ps = ps ∨
    handleCameraStream t o ps = loopBody t o ps := by
  by_cases h : ps.app.predictionFound = true
  · exact Or.inl (by simp [handleCameraStream, h])
  · exact Or.inr (by simp [handleCameraStream, h])

/-- A fired frame either does nothing (nothing pending) or runs the loop
on the state with the fired frame no longer pending. -/
theorem fireFrame_cases (t : Option (List Prediction)) (o : FetchOutcome)
    (ps : PollState) :
    fireFrame t o ps = ps ∨
    ∃ ps1 : PollState, fireFrame t o ps = loopBody t o ps1 ∧ ps1.app = ps.app := by
  obtain ⟨a, rid, pnd, nid, calls⟩ := ps
  cases pnd with
  | none => exact Or.inl rfl
  | some k => exact Or.inr ⟨⟨a, rid, none, nid, calls⟩, rfl, rfl⟩

/-- The invariant: a non-empty translation is only ever on display. -/
def TranslationInv (ps : PollState) : Prop :=
  ps.app.translation ≠ "" → ps.app.translationAvailable = true

/-- The loop body preserves the invariant. -/
theorem loopBody_translationInv (t : Option (List Prediction))
    (o : FetchOutcome) (ps : PollState) (h : TranslationInv ps) :
    TranslationInv (loopBody t o ps) := by
  intro hne
  rcases getPrediction_app_cases t o ps with hc | hc
  · have happ : (loopBody t o ps).app = ps.app := by rw [loopBody_app, hc]
    rw [happ] at hne ⊢
    exact h hne
  · show (getPrediction t o ps).app.translationAvailable = true
    exact hc

/-- Every event step preserves the invariant. -/
theorem step_translationInv (e : Event) (ps : PollState)
    (h : TranslationInv ps) : TranslationInv (step e ps) := by
  cases e with
  | reset => exact fun hne => absurd rfl hne
  | setLanguage c => exact fun hne => h hne
  | streamReady t o =>
    rcases handleCameraStream_cases t o ps with hc | hc
    · show TranslationInv (handleCameraStream t o ps)
      rw [hc]; exact h
    · show TranslationInv (handleCameraStream t o ps)
      rw [hc]; exact loopBody_translationInv t o ps h
  | frame t o =>
    rcases fireFrame_cases t o ps with hc | ⟨ps1, hc, happ⟩
    · show TranslationInv (fireFrame t o ps)
      rw [hc]; exact h
    · show TranslationInv (fireFrame t o ps)
      rw [hc]
      refine loopBody_translationInv t o ps1 ?_
      intro hne
      rw [happ] at hne ⊢
      exact h hne

/-- Any run of events preserves the invariant. -/
theorem run_translationInv (es : List Event) (ps : PollState)
    (h : TranslationInv ps) : TranslationInv (run es ps) := by
  induction es generalizing ps with
  | nil => exact h
  | cons e es ih => exact ih (step e ps) (step_translationInv e ps h)

/-- Claim C1, amended: for a top confidence at or below 0.3,
`getPrediction` changes nothing — no stop, no translation.  Above 0.3,
it sets the `predictionFound` stop flag, invokes translation exactly
once in that handler, and the resulting component state is exactly what
`getTranslation` makes of the flagged state — in particular the label is
recorded only by a successful translation completion, not at
classification time. -/
theorem C1_threshold (top : Prediction) (rest : List Prediction)
    (o : FetchOutcome) (ps : PollState) :
    (top.probability ≤ confidenceThreshold →
      getPrediction (some (top :: rest)) o ps = ps) ∧
    (confidenceThreshold < top.probability →
      (getPrediction (some (top :: rest)) o ps).app.predictionFound = true ∧
      (getPrediction (some (top :: rest)) o ps).translationCalls =
        ps.translationCalls + 1 ∧
      (getPrediction (some (top :: rest)) o ps).app =
        getTranslation top.className o { ps.app with predictionFound := true }) := by
  constructor
  · intro h
    exact getPrediction_low top rest o ps h
  · intro h
    rw [getPrediction_high top rest o ps h]
    refine ⟨?_, rfl, rfl⟩
    rw [getTranslation_predictionFound]

/-- Claim C1 witness: a 0.2-confidence tick is a no-op; a 0.81-confidence
tick sets the stop flag. -/
theorem C1_witness :
    (lowPrediction.probability ≤ confidenceThreshold ∧
      getPrediction (some [lowPrediction]) FetchOutcome.throws resetPoll =
        resetPoll) ∧
    (confidenceThreshold < mugPrediction.probability ∧
      (getPrediction (some [mugPrediction]) FetchOutcome.throws
          resetPoll).app.predictionFound = true) :=
  ⟨⟨by decide,
      (C1_threshold lowPrediction [] FetchOutcome.throws resetPoll).1 (by decide)⟩,
    ⟨by decide,
      ((C1_threshold mugPrediction [] FetchOutcome.throws resetPoll).2 (by decide)).1⟩⟩

/-- Claim C1 counterexample: a confident classification (0.81 > 0.3)
whose translation fetch fails leaves `word` empty — the label is never
recorded into session state, refuting the claim that a confident
classification records the label. -/
theorem C1_counterexample :
    confidenceThreshold < mugPrediction.probability ∧
    (getPrediction (some [mugPrediction]) FetchOutcome.throws
        resetPoll).app.word = "" ∧
    (getPrediction (some [mugPrediction]) FetchOutcome.throws
        resetPoll).app.word ≠ mugPrediction.className := by
  decide

/-- Claim C2, evaluated at the failing input: after one confident tick
the `cancelAnimationFrame` at App.js line 187 targets the id of the
frame that already fired and the loop at lines 203-207 reschedules
unconditionally, so a frame is still pending; a second confident tick
then invokes `getTranslation` a second time in the same cycle. -/
theorem C2_evaluation :
    (handleCameraStream mugTensor FetchOutcome.throws resetPoll).translationCalls = 1 ∧
    (handleCameraStream mugTensor FetchOutcome.throws resetPoll).pending.isSome = true ∧
    (fireFrame mugTensor FetchOutcome.throws
        (handleCameraStream mugTensor FetchOutcome.throws resetPoll)).translationCalls = 2 ∧
    (fireFrame mugTensor FetchOutcome.throws
        (handleCameraStream mugTensor FetchOutcome.throws resetPoll)).pending.isSome = true := by
  decide

/-- Claim C3, amended: every failing execution of `getTranslation`
stores the single fixed fallback string of App.js lines 119/127/136 —
which reads "Cannot get transaction at this time. Please try again
later" — as the translated text and leaves the state in phase
`ShowingResult`; the embedding is a total function (the `catch` absorbs
every failure) and consumes its one fetch outcome, so nothing is raised
and nothing is retried. -/
theorem C3_failure_fallback (cn : String) (o : FetchOutcome) (s : AppState)
    (h : o.failing = true) :
    (getTranslation cn o s).translation = fallbackMessage ∧
    phase (getTranslation cn o s) = Phase.ShowingResult := by
  rw [getTranslation_failing_eq cn o s h]
  exact ⟨rfl, rfl⟩

/-- Claim C3 witness: a body that fails to parse ends in the fallback
text and `ShowingResult`. -/
theorem C3_witness :
    FetchOutcome.jsonThrows.failing = true ∧
    (getTranslation "mug" FetchOutcome.jsonThrows resetState).translation =
      fallbackMessage ∧
    phase (getTranslation "mug" FetchOutcome.jsonThrows resetState) =
      Phase.ShowingResult :=
  ⟨by decide,
    (C3_failure_fallback "mug" FetchOutcome.jsonThrows resetState (by decide)).1,
    (C3_failure_fallback "mug" FetchOutcome.jsonThrows resetState (by decide)).2⟩

/-- Claim C3 counterexample: the stored fallback is not the spec's
string "cannot get translation at this time, try again later"; the code
writes "Cannot get transaction at this time. Please try again later". -/
theorem C3_counterexample :
    (getTranslation "mug" FetchOutcome.throws resetState).translation ≠
      "cannot get translation at this time, try again later" ∧
    (getTranslation "mug" FetchOutcome.throws resetState).translation =
      fallbackMessage := by
  decide

/-- Claim C4, amended: reset empties the label and the translation; a
failing translation leaves the label untouched while a successful one
sets it to the classified class name (so the label is written by the
translation completion handler, not at classification time); and in
every reachable state the translated text is non-empty only in phase
`ShowingResult`. -/
theorem C4_label_and_phase :
    (∀ s : AppState,
      (loadNewTranslation s).word = "" ∧ (loadNewTranslation s).translation = "") ∧
    (∀ (cn : String) (o : FetchOutcome) (s : AppState), o.failing = true →
      (getTranslation cn o s).word = s.word) ∧
    (∀ (cn : String) (e : TranslationEntry) (rest : List TranslationEntry)
        (s : AppState),
      (getTranslation cn (FetchOutcome.ok ⟨some ⟨e :: rest⟩⟩) s).word = cn) ∧
    (∀ es : List Event, (run es initialPollState).app.translation ≠ "" →
      phase (run es initialPollState).app = Phase.ShowingResult) := by
  refine ⟨fun s => ⟨rfl, rfl⟩, ?_, fun cn e rest s => rfl, ?_⟩
  · intro cn o s h
    rw [getTranslation_failing_eq cn o s h]
  · intro es hne
    have hinv : TranslationInv (run es initialPollState) :=
      run_translationInv es initialPollState (fun hne0 => absurd rfl hne0)
    exact phase_of_available _ (hinv hne)

/-- Claim C4 witness: a failed translation does not move the label, and
the mug run ends with a non-empty translation in `ShowingResult`. -/
theorem C4_witness :
    (FetchOutcome.throws.failing = true ∧
      (getTranslation "cat" FetchOutcome.throws initialState).word =
        initialState.word) ∧
    ((run [Event.reset, Event.streamReady mugTensor mugOutcome]
        initialPollState).app.translation ≠ "" ∧
      phase (run [Event.reset, Event.streamReady mugTensor mugOutcome]
        initialPollState).app = Phase.ShowingResult) :=
  ⟨⟨by decide, C4_label_and_phase.2.1 "cat" FetchOutcome.throws initialState (by decide)⟩,
    ⟨by decide,
      C4_label_and_phase.2.2.2 [Event.reset, Event.streamReady mugTensor mugOutcome]
        (by decide)⟩⟩

/-- Claim C4 counterexample: a cycle with a confident classification
(0.5 > 0.3) whose translation response lacks the `data` field ends in
`ShowingResult` with `word` still empty — the label was set zero times
in the cycle, not exactly once at the moment of classification. -/
theorem C4_counterexample :
    confidenceThreshold < dogPrediction.probability ∧
    phase (getPrediction (some [dogPrediction]) emptyDataOutcome resetPoll).app =
      Phase.ShowingResult ∧
    (getPrediction (some [dogPrediction]) emptyDataOutcome resetPoll).app.word = "" := by
  decide

/-- Claim C5, amended: the translation completion handler performs no
phase check — applied to any state in phase `Capturing` (a post-reset
state) it still mutates session state and forces phase `ShowingResult`,
so a stale completion does overwrite a post-reset state. -/
theorem C5_stale_completion (cn : String) (o : FetchOutcome) (s : AppState)
    (h : phase s = Phase.Capturing) :
    getTranslation cn o s ≠ s ∧
    phase (getTranslation cn o s) = Phase.ShowingResult := by
  have hta : s.translationAvailable = false := by
    cases hb : s.translationAvailable
    · rfl
    · simp [phase, hb] at h
  refine ⟨fun he => ?_,
    phase_of_available _ (getTranslation_translationAvailable cn o s)⟩
  have hav := getTranslation_translationAvailable cn o s
  rw [he, hta] at hav
  exact Bool.false_ne_true hav

/-- Claim C5 witness: the post-reset state is in `Capturing` and a stale
completion really changes it. -/
theorem C5_witness :
    phase resetState = Phase.Capturing ∧
    getTranslation "mug" FetchOutcome.throws resetState ≠ resetState :=
  ⟨by decide,
    (C5_stale_completion "mug" FetchOutcome.throws resetState (by decide)).1⟩

/-- Claim C5 counterexample: a reset taken mid-cycle yields a state in
phase `Capturing`; a stale translation completion then mutates it and
drags the phase to `ShowingResult`, refuting "a stale completion never
overwrites the post-reset state". -/
theorem C5_counterexample :
    phase staleResetState = Phase.Capturing ∧
    getTranslation "cat" FetchOutcome.jsonThrows staleResetState ≠ staleResetState ∧
    phase (getTranslation "cat" FetchOutcome.jsonThrows staleResetState) =
      Phase.ShowingResult := by
  decide

/-- Claim C6: from any prior state, `loadNewTranslation` yields phase
`Capturing` with empty label and translation, and on such a state
`handleCameraStream` passes its `predictionFound` guard and runs the
polling loop. -/
theorem C6_reset (s : AppState) :
    phase (loadNewTranslation s) = Phase.Capturing ∧
    (loadNewTranslation s).word = "" ∧
    (loadNewTranslation s).translation = "" ∧
    ∀ (t : Option (List Prediction)) (o : FetchOutcome) (ps : PollState),
      ps.app = loadNewTranslation s →
        handleCameraStream t o ps = loopBody t o ps := by
  refine ⟨rfl, rfl, rfl, ?_⟩
  intro t o ps hps
  have hp : ps.app.predictionFound = false := by rw [hps]; rfl
  simp [handleCameraStream, hp]

/-- Claim C6 witness: resetting the start state lands in `Capturing` and
the stream handler starts the loop there. -/
theorem C6_witness :
    phase (loadNewTranslation initialState) = Phase.Capturing ∧
    handleCameraStream none FetchOutcome.throws resetPoll =
      loopBody none FetchOutcome.throws resetPoll :=
  ⟨(C6_reset initialState).1,
    (C6_reset initialState).2.2.2 none FetchOutcome.throws resetPoll rfl⟩

/-- Claim C7: a successful response uses only the first translation
entry — the final state has the classified label as `word`, the first
entry's text as `translation`, and `translationAvailable` set; the
concrete mug/he run ends with word "mug", translation "ספל", phase
`ShowingResult`. -/
theorem C7_success_first_entry (s : AppState) (cn : String)
    (e : TranslationEntry) (rest : List TranslationEntry) :
    getTranslation cn (FetchOutcome.ok ⟨some ⟨e :: rest⟩⟩) s =
      { s with translation := e.translatedText, word := cn,
               translationAvailable := true } ∧
    (run [Event.reset, Event.streamReady mugTensor mugOutcome]
      initialPollState).app.word = "mug" ∧
    (run [Event.reset, Event.streamReady mugTensor mugOutcome]
      initialPollState).app.translation = "ספל" ∧
    phase (run [Event.reset, Event.streamReady mugTensor mugOutcome]
      initialPollState).app = Phase.ShowingResult :=
  ⟨rfl, by decide, by decide, by decide⟩

/-- Claim C8, amended: at application start the label and translation
are empty and the default target language is "he", but
`translationAvailable` is initialised to `true` (App.js line 31), so the
app starts in phase `ShowingResult` — the (empty) result view — and not
in `Capturing`; capturing begins only after the user's first reset. -/
theorem C8_initial_state :
    initialState.word = "" ∧
    initialState.translation = "" ∧
    initialState.language = "he" ∧
    initialState.translationAvailable = true ∧
    phase initialState = Phase.ShowingResult := by
  decide

/-- Claim C8 counterexample: the start state is not in phase
`Capturing`. -/
theorem C8_counterexample : phase initialState ≠ Phase.Capturing := by
  decide

/-- Claim C9: a run of inconclusive ticks (no frame, or an empty
classifier result) leaves the component state untouched, invokes no
translation, keeps the loop scheduled exactly as it was, and keeps the
phase at `Capturing` for as long as no confident result arrives. -/
theorem C9_inconclusive (ticks : List (Option (List Prediction) × FetchOutcome))
    (ps : PollState) (h : ∀ p ∈ ticks, p.1 = none ∨ p.1 = some []) :
    (run (ticks.map fun q => Event.frame q.1 q.2) ps).app = ps.app ∧
    (run (ticks.map fun q => Event.frame q.1 q.2) ps).translationCalls =
      ps.translationCalls ∧
    (run (ticks.map fun q => Event.frame q.1 q.2) ps).pending.isSome =
      ps.pending.isSome ∧
    (phase ps.app = Phase.Capturing →
      phase (run (ticks.map fun q => Event.frame q.1 q.2) ps).app =
        Phase.Capturing) := by
  induction ticks generalizing ps with
  | nil => exact ⟨rfl, rfl, rfl, fun hc => hc⟩
  | cons p ticks ih =>
    have hp := h p (List.mem_cons_self p ticks)
    have hf := fireFrame_inconclusive p.1 p.2 ps hp
    have ihh := ih (fireFrame p.1 p.2 ps) (fun q hq => h q (List.mem_cons_of_mem p hq))
    refine ⟨?_, ?_, ?_, ?_⟩
    · show (run (ticks.map fun q => Event.frame q.1 q.2)
          (fireFrame p.1 p.2 ps)).app = ps.app
      rw [ihh.1, hf.1]
    · show (run (ticks.map fun q => Event.frame q.1 q.2)
          (fireFrame p.1 p.2 ps)).translationCalls = ps.translationCalls
      rw [ihh.2.1, hf.2.1]
    · show (run (ticks.map fun q => Event.frame q.1 q.2)
          (fireFrame p.1 p.2 ps)).pending.isSome = ps.pending.isSome
      rw [ihh.2.2.1, hf.2.2]
    · intro hc
      show phase (run (ticks.map fun q => Event.frame q.1 q.2)
          (fireFrame p.1 p.2 ps)).app = Phase.Capturing
      rw [ihh.1, hf.1]
      exact hc

/-- Claim C9 witness: two inconclusive ticks on a scheduled capturing
state change nothing and stay in `Capturing`. -/
theorem C9_witness :
    (∀ p ∈ inconclusiveTicks, p.1 = none ∨ p.1 = some []) ∧
    (run (inconclusiveTicks.map fun q => Event.frame q.1 q.2)
      capturingPoll).app = capturingPoll.app ∧
    phase (run (inconclusiveTicks.map fun q => Event.frame q.1 q.2)
      capturingPoll).app = Phase.Capturing :=
  ⟨by decide,
    (C9_inconclusive inconclusiveTicks capturingPoll (by decide)).1,
    (C9_inconclusive inconclusiveTicks capturingPoll (by decide)).2.2.2 (by decide)⟩

/-- Claim C10: on every failing execution of `getTranslation` the label
variable `word` — and also `language` and `predictionFound` — are left
unchanged; the whole effect is exactly setting the fallback translation
and the `translationAvailable` flag. -/
theorem C10_frame (cn : String) (o : FetchOutcome) (s : AppState)
    (h : o.failing = true) :
    (getTranslation cn o s).word = s.word ∧
    (getTranslation cn o s).language = s.language ∧
    (getTranslation cn o s).predictionFound = s.predictionFound ∧
    getTranslation cn o s =
      { s with translation := fallbackMessage, translationAvailable := true } := by
  rw [getTranslation_failing_eq cn o s h]
  exact ⟨rfl, rfl, rfl, rfl⟩

/-- Claim C10 witness: a response without the `data` field leaves `word`
where it was. -/
theorem C10_witness :
    emptyDataOutcome.failing = true ∧
    (getTranslation "dog" emptyDataOutcome resetState).word = resetState.word :=
  ⟨by decide, (C10_frame "dog" emptyDataOutcome resetState (by decide)).1⟩

end Pictionary
